import Mathlib

/-!
Verification of the core logic of `list_prs.py`: the cutoff-date calculator
(`get_last_friday`), the recency filter (`is_after_date`), the repository
roster generator (`get_team_repos`) and the query wrapper (`run_gh_command`).

Dates follow the proleptic Gregorian calendar exactly as Python's `datetime`
module implements it: a date is identified with its ordinal (day count with
0001-01-01 as day 1, as returned by `date.toordinal`), and `weekday` numbers
Monday as 0 through Sunday as 6.
-/

namespace ListPrs

/-- Gregorian leap-year rule, as in Python's `calendar.isleap` /
`datetime._is_leap`. -/
def isLeap (y : Nat) : Bool := y % 4 == 0 && (y % 100 != 0 || y % 400 == 0)

/-- Number of days in month `m` (1..12) of year `y`, as in
`datetime._days_in_month`. -/
def daysInMonth (y m : Nat) : Nat :=
  if m = 2 then (if isLeap y then 29 else 28)
  else if m = 4 ∨ m = 6 ∨ m = 9 ∨ m = 11 then 30
  else 31

/-- Days in year `y` strictly before month `m`, as in
`datetime._days_before_month`. -/
def daysBeforeMonth (y m : Nat) : Nat :=
  ((List.range' 1 (m - 1)).map (daysInMonth y)).sum

/-- Days before January 1 of year `y`, as in `datetime._days_before_year`. -/
def daysBeforeYear (y : Nat) : Nat :=
  (y - 1) * 365 + (y - 1) / 4 - (y - 1) / 100 + (y - 1) / 400

/-- Ordinal of the date `y-m-d`, as in `datetime.date.toordinal`
(0001-01-01 is ordinal 1). -/
def toordinal (y m d : Nat) : Nat :=
  daysBeforeYear y + daysBeforeMonth y m + d

/-- Weekday of the date with the given ordinal, numbered as Python's
`date.weekday`: 0 = Monday, ..., 4 = Friday, 6 = Sunday.
0001-01-01 (ordinal 1) is a Monday. -/
def weekday (ord : Nat) : Nat := (ord + 6) % 7

/-- The date `y-m-d` is a real calendar date that `datetime.date` accepts
(`MINYEAR = 1`, `MAXYEAR = 9999`). -/
abbrev ValidDate (y m d : Nat) : Prop :=
  1 ≤ y ∧ y ≤ 9999 ∧ 1 ≤ m ∧ m ≤ 12 ∧ 1 ≤ d ∧ d ≤ daysInMonth y m

/-- Cumulative days before month `m` in a non-leap year
(`datetime._DAYS_BEFORE_MONTH`, 1-indexed). -/
def daysBeforeMonthNL (m : Nat) : Nat :=
  [0, 0, 31, 59, 90, 120, 151, 181, 212, 243, 273, 304, 334].getD m 0

/-- Days in month `m` of a non-leap year (`datetime._DAYS_IN_MONTH`,
1-indexed). -/
def daysInMonthNL (m : Nat) : Nat :=
  [0, 31, 28, 31, 30, 31, 30, 31, 31, 30, 31, 30, 31].getD m 0

/-- Ordinal to `(year, month, day)`, following CPython's `datetime._ord2ymd`
(400/100/4/1-year cycle arithmetic). -/
def ord2ymd (n : Nat) : Nat × Nat × Nat :=
  let n0 := n - 1
  let n400 := n0 / 146097
  let r400 := n0 % 146097
  let n100 := r400 / 36524
  let r100 := r400 % 36524
  let n4 := r100 / 1461
  let r4 := r100 % 1461
  let n1 := r4 / 365
  let r1 := r4 % 365
  let year := n400 * 400 + 1 + n100 * 100 + n4 * 4 + n1
  if n1 = 4 ∨ n100 = 4 then (year - 1, 12, 31)
  else
    let leap : Bool := (n1 == 3) && (n4 != 24 || n100 == 3)
    let month0 := (r1 + 50) / 32
    let preceding0 := daysBeforeMonthNL month0 + (if month0 > 2 && leap then 1 else 0)
    if preceding0 > r1 then
      let month := month0 - 1
      let preceding := preceding0 - (daysInMonthNL month + (if month == 2 && leap then 1 else 0))
      (year, month, r1 - preceding + 1)
    else
      (year, month0, r1 - preceding0 + 1)

/-- Decimal rendering of `n` left-padded with zeros to 2 digits
(`strftime` field `%m` / `%d`). -/
def pad2 (n : Nat) : String := if n < 10 then "0" ++ toString n else toString n

/-- Decimal rendering of `n` left-padded with zeros to 4 digits
(`strftime` field `%Y`). -/
def pad4 (n : Nat) : String :=
  if n < 10 then "000" ++ toString n
  else if n < 100 then "00" ++ toString n
  else if n < 1000 then "0" ++ toString n
  else toString n

/-- `strftime('%Y-%m-%d')` applied to a `(year, month, day)` triple. -/
def formatYMD (ymd : Nat × Nat × Nat) : String :=
  pad4 ymd.1 ++ "-" ++ pad2 ymd.2.1 ++ "-" ++ pad2 ymd.2.2

/-- Current local date and time, as far as `get_last_friday` inspects
`datetime.now()`: the calendar date and the hour. -/
structure Now where
  year : Nat
  month : Nat
  day : Nat
  hour : Nat

/-- The `days_since_friday` quantity of `get_last_friday`:
`(today.weekday() - 4) % 7` (Python `%` on a negative left operand yields a
result in `[0, 7)`, which `Int.emod` matches), bumped to 7 when today is a
Friday before 9 o'clock local time. -/
def days_since_friday (now : Now) : Nat :=
  let wd := weekday (toordinal now.year now.month now.day)
  let d := (((wd : Int) - 4) % 7).toNat
  if d = 0 ∧ now.hour < 9 then 7 else d

/-- The date computed by `get_last_friday` before formatting:
`today - timedelta(days=days_since_friday)`, as an ordinal. -/
def get_last_friday_ord (now : Now) : Nat :=
  toordinal now.year now.month now.day - days_since_friday now

/-- `get_last_friday`: the cutoff date, rendered with
`strftime('%Y-%m-%d')`. -/
def get_last_friday (now : Now) : String :=
  formatYMD (ord2ymd (get_last_friday_ord now))

/-- The name the spec prescribes for team `i` in category `c`:
`TEAM17_{c}` for team 17, `Team{i}_{c}` otherwise. -/
def specRepoName (i : Nat) (c : String) : String :=
  if i = 17 then "TEAM17_" ++ c else "Team" ++ toString i ++ "_" ++ c

/-- `get_team_repos`: the FE repositories for teams 1..22 followed by the BE
repositories for teams 1..22, team 17 spelled `TEAM17_FE` / `TEAM17_BE`. -/
def get_team_repos : List (String × String) :=
  ((List.range' 1 22).map fun i =>
    (if i = 17 then "TEAM17_FE" else "Team" ++ toString i ++ "_FE", "FE")) ++
  ((List.range' 1 22).map fun i =>
    (if i = 17 then "TEAM17_BE" else "Team" ++ toString i ++ "_BE", "BE"))

/-- Digit value of a decimal digit character. -/
def digitVal (c : Char) : Nat := c.toNat - 48

/-- Value of a non-empty all-digit character run (the restriction of Python's
`int` to the strings the ISO formats feed it). -/
def digitsToNat (cs : List Char) : Nat :=
  cs.foldl (fun a c => a * 10 + digitVal c) 0

/-- `pr_date.replace('Z', '+00:00')`: every occurrence of `Z` becomes the
explicit zero offset `+00:00`. -/
def replaceZ (s : String) : String :=
  String.mk (s.data.foldr
    (fun c acc => if c = 'Z' then '+' :: '0' :: '0' :: ':' :: '0' :: '0' :: acc else c :: acc)
    [])

/-- CPython's `datetime._parse_isoformat_date` on a 10-character slice:
exactly `YYYY-MM-DD`, all four fields decimal digits.  Range checking is left
to the `datetime` constructor (see `fromisoformat`). -/
def parse_isoformat_date (cs : List Char) : Option (Nat × Nat × Nat) :=
  match cs with
  | [y1, y2, y3, y4, s1, m1, m2, s2, d1, d2] =>
    if s1 = '-' ∧ s2 = '-' ∧ ([y1, y2, y3, y4, m1, m2, d1, d2].all Char.isDigit) then
      some (digitsToNat [y1, y2, y3, y4], digitsToNat [m1, m2], digitsToNat [d1, d2])
    else none
  | _ => none

/-- CPython's `datetime._parse_hh_mm_ss_ff`: `HH`, `HH:MM`, `HH:MM:SS`, or
`HH:MM:SS.fff` / `HH:MM:SS.ffffff` (fraction of exactly 3 or 6 digits,
scaled to microseconds).  No range checking here; that is the constructor's
job. -/
def parse_hh_mm_ss_ff (cs : List Char) : Option (Nat × Nat × Nat × Nat) :=
  match cs with
  | [a, b] =>
    if [a, b].all Char.isDigit then some (digitsToNat [a, b], 0, 0, 0) else none
  | [a, b, x, c, d] =>
    if x = ':' ∧ [a, b, c, d].all Char.isDigit then
      some (digitsToNat [a, b], digitsToNat [c, d], 0, 0)
    else none
  | [a, b, x, c, d, y, e, f] =>
    if x = ':' ∧ y = ':' ∧ [a, b, c, d, e, f].all Char.isDigit then
      some (digitsToNat [a, b], digitsToNat [c, d], digitsToNat [e, f], 0)
    else none
  | a :: b :: x :: c :: d :: y :: e :: f :: dot :: frac =>
    if x = ':' ∧ y = ':' ∧ dot = '.' ∧ [a, b, c, d, e, f].all Char.isDigit ∧
        frac.all Char.isDigit ∧ (frac.length = 3 ∨ frac.length = 6) then
      some (digitsToNat [a, b], digitsToNat [c, d], digitsToNat [e, f],
        digitsToNat frac * (if frac.length = 3 then 1000 else 1))
    else none
  | _ => none

/-- CPython's `datetime._parse_isoformat_time`: the time-of-day components
plus the UTC offset in microseconds (`none` = naive).  The offset substring
starts after the first `+` or `-` of the string, must have length 5, 8 or 15
(`HH:MM[:SS[.ffffff]]`), and the `timezone` constructor then requires the
offset to lie strictly between -24 and +24 hours (an all-zero offset is
`timezone.utc`). -/
def parse_isoformat_time (cs : List Char) : Option (Nat × Nat × Nat × Nat × Option Int) :=
  if cs.length < 2 then none
  else
    let tz_pos : Nat :=
      match cs.findIdx? (fun c => c == '-') with
      | some i => i + 1
      | none =>
        match cs.findIdx? (fun c => c == '+') with
        | some i => i + 1
        | none => 0
    let timestr := if tz_pos > 0 then cs.take (tz_pos - 1) else cs
    match parse_hh_mm_ss_ff timestr with
    | none => none
    | some (h, mi, s, us) =>
      if tz_pos = 0 then some (h, mi, s, us, none)
      else
        let tzstr := cs.drop tz_pos
        if tzstr.length = 5 ∨ tzstr.length = 8 ∨ tzstr.length = 15 then
          match parse_hh_mm_ss_ff tzstr with
          | none => none
          | some (th, tm, ts, tus) =>
            let total : Int := ((th * 3600 + tm * 60 + ts) * 1000000 + tus : Nat)
            let signed : Int := if cs.getD (tz_pos - 1) ' ' = '-' then -total else total
            if total = 0 then some (h, mi, s, us, some 0)
            else if signed ≤ -(86400000000 : Int) ∨ (86400000000 : Int) ≤ signed then none
            else some (h, mi, s, us, some signed)
        else none

/-- A parsed `datetime` value: calendar date, time of day, and optional UTC
offset in microseconds. -/
structure PyDateTime where
  year : Nat
  month : Nat
  day : Nat
  hour : Nat
  minute : Nat
  second : Nat
  microsecond : Nat
  tzoffset : Option Int
deriving DecidableEq

/-- CPython's `datetime.datetime.fromisoformat` (3.7-3.10 grammar, the one
the script's `Z`-replacement targets): the first 10 characters are the date,
character 11 (when present) is an arbitrary separator, and the rest is the
time.  The final constructor check enforces the field ranges. -/
def fromisoformat (s : String) : Option PyDateTime :=
  let cs := s.data
  match parse_isoformat_date (cs.take 10) with
  | none => none
  | some (y, m, d) =>
    let tstr := cs.drop 11
    let timeResult : Option (Nat × Nat × Nat × Nat × Option Int) :=
      if cs.length ≤ 10 then some (0, 0, 0, 0, none)
      else if tstr.isEmpty then
        if cs.length = 11 then some (0, 0, 0, 0, none) else none
      else parse_isoformat_time tstr
    match timeResult with
    | none => none
    | some (h, mi, sec, us, tz) =>
      if 1 ≤ y ∧ y ≤ 9999 ∧ 1 ≤ m ∧ m ≤ 12 ∧ 1 ≤ d ∧ d ≤ daysInMonth y m ∧
          h ≤ 23 ∧ mi ≤ 59 ∧ sec ≤ 59 then
        some ⟨y, m, d, h, mi, sec, us, tz⟩
      else none

/-- CPython's `datetime.datetime.strptime` with format `'%Y-%m-%d'`: `%Y` is
exactly four digits; `%m` and `%d` are one- or two-digit runs (regexes
`1[0-2]|0[1-9]|[1-9]` and `3[01]|[1-2]\d|0[1-9]|[1-9]`, i.e. values 1-12 and
1-31 with no all-zero field), and the `datetime` constructor then checks the
day against the month length. -/
def strptime_Ymd (s : String) : Option (Nat × Nat × Nat) :=
  match s.data with
  | y1 :: y2 :: y3 :: y4 :: sep :: rest =>
    if sep = '-' ∧ [y1, y2, y3, y4].all Char.isDigit then
      let mcs := rest.takeWhile Char.isDigit
      match rest.dropWhile Char.isDigit with
      | sep2 :: rest2 =>
        if sep2 = '-' then
          let dcs := rest2.takeWhile Char.isDigit
          if rest2.dropWhile Char.isDigit = [] then
            let y := digitsToNat [y1, y2, y3, y4]
            let m := digitsToNat mcs
            let d := digitsToNat dcs
            if (mcs.length = 1 ∨ mcs.length = 2) ∧ 1 ≤ m ∧ m ≤ 12 ∧
                (dcs.length = 1 ∨ dcs.length = 2) ∧ 1 ≤ d ∧ d ≤ 31 ∧
                1 ≤ y ∧ d ≤ daysInMonth y m then
              some (y, m, d)
            else none
          else none
        else none
      | [] => none
    else none
  | _ => none

/-- Python's comparison `d1 >= d2` on `datetime.date` values: lexicographic
on `(year, month, day)`. -/
def dateGe (a b : Nat × Nat × Nat) : Bool :=
  decide (b.1 < a.1 ∨ (b.1 = a.1 ∧ (b.2.1 < a.2.1 ∨ (b.2.1 = a.2.1 ∧ b.2.2 ≤ a.2.2))))

/-- `is_after_date(pr_date, cutoff_date)`: parse the timestamp with
`fromisoformat` after replacing `Z` by `+00:00`, parse the cutoff with
`strptime('%Y-%m-%d')`, and compare the `.date()` parts.  `none` models the
exception raised when either parse fails. -/
def is_after_date (pr_date : String) (cutoff_date : String) : Option Bool :=
  match fromisoformat (replaceZ pr_date) with
  | none => none
  | some dt =>
    match strptime_Ymd cutoff_date with
    | none => none
    | some c => some (dateGe (dt.year, dt.month, dt.day) c)

/-- One record of the JSON array produced by
`gh pr list --json number,title,headRefName,state,updatedAt`. -/
structure PRRecord where
  number : Nat
  title : String
  headRefName : String
  state : String
  updatedAt : String
deriving DecidableEq

/-- Outcome of `subprocess.run(..., check=True)`: either the captured stdout,
or a `CalledProcessError` carrying the non-zero exit status. -/
inductive SubprocResult where
  | ok (stdout : String)
  | calledProcessError (returncode : Nat)
deriving DecidableEq

/-- `run_gh_command`, with the two external effects passed in explicitly:
`exec repo state` models the `gh pr list` subprocess invocation and
`jsonLoads` models `json.loads` on its stdout (`none` = `JSONDecodeError`).
A subprocess failure or a JSON decoding failure is caught and turned into
the empty list. -/
def run_gh_command (exec : String → String → SubprocResult)
    (jsonLoads : String → Option (List PRRecord))
    (repo : String) (state : String) : List PRRecord :=
  match exec repo state with
  | SubprocResult.calledProcessError _ => []
  | SubprocResult.ok out =>
    match jsonLoads out with
    | none => []
    | some prs => prs

/-- `s` ends with the suffix `suf` (character-wise). -/
def strEndsWith (s suf : String) : Bool := suf.data.isSuffixOf s.data

/-- `(((t + 6) % 7) - 4) % 7` computed in `Int` (Python's `%` on a negative
left operand) equals `(t + 2) % 7` computed in `Nat`. -/
lemma int_dsf (t : Nat) :
    ((((t + 6) % 7 : Nat) : Int) - 4) % 7 = (((t + 2) % 7 : Nat) : Int) := by
  omega

/-- `days_since_friday` as a single `Nat`-arithmetic expression. -/
lemma days_since_friday_eq (now : Now) :
    days_since_friday now =
      if (toordinal now.year now.month now.day + 2) % 7 = 0 ∧ now.hour < 9 then 7
      else (toordinal now.year now.month now.day + 2) % 7 := by
  unfold days_since_friday weekday
  simp only [int_dsf, Int.toNat_ofNat]

/-- Every valid date in year 2 or later has ordinal at least 366, so
subtracting up to 7 days stays inside the calendar. -/
lemma toordinal_ge (y m d : Nat) (hv : ValidDate y m d) (hy : 2 ≤ y) :
    366 ≤ toordinal y m d := by
  unfold toordinal daysBeforeYear
  obtain ⟨h1, h2, h3, h4, h5, h6⟩ := hv
  have h14 : (y - 1) / 100 ≤ (y - 1) / 4 := Nat.div_le_div_left (by norm_num) (by norm_num)
  omega

/-- C1: for every timestamp that `fromisoformat` accepts after the
`Z → +00:00` replacement and every cutoff that `strptime('%Y-%m-%d')`
accepts, `is_after_date` returns true iff the calendar-date portion of the
timestamp is `≥` the cutoff date (time of day discarded on both sides);
in particular `is_after_date('2025-09-05T10:00:00Z', '2025-09-05') = true`
and `is_after_date('2025-09-04T23:59:59Z', '2025-09-05') = false`. -/
theorem c1_is_after_date_ge :
    (∀ T C dt c, fromisoformat (replaceZ T) = some dt → strptime_Ymd C = some c →
      (is_after_date T C = some true ↔ dateGe (dt.year, dt.month, dt.day) c = true)) ∧
    is_after_date "2025-09-05T10:00:00Z" "2025-09-05" = some true ∧
    is_after_date "2025-09-04T23:59:59Z" "2025-09-05" = some false := by
  refine ⟨?_, by decide, by decide⟩
  intro T C dt c hT hC
  unfold is_after_date
  rw [hT, hC]
  simp

/-- Witness for C1 at the spec's example: the timestamp
`2025-09-05T10:00:00Z` parses to the date 2025-09-05, which is `≥` the
cutoff 2025-09-05. -/
theorem c1_is_after_date_ge_witness : dateGe (2025, 9, 5) (2025, 9, 5) = true :=
  (c1_is_after_date_ge.1 "2025-09-05T10:00:00Z" "2025-09-05"
      ⟨2025, 9, 5, 10, 0, 0, 0, some 0⟩ (2025, 9, 5) (by decide) (by decide)).mp
    c1_is_after_date_ge.2.1

/-- C2: on a Friday before 9 o'clock local time, `get_last_friday` rolls
back to the previous week's Friday, i.e. today's ordinal minus 7; e.g.
Friday 2025-09-12 08:00 yields the cutoff `2025-09-05`. -/
theorem c2_friday_before_nine :
    (∀ now : Now, ValidDate now.year now.month now.day → 2 ≤ now.year →
      weekday (toordinal now.year now.month now.day) = 4 → now.hour < 9 →
      get_last_friday_ord now = toordinal now.year now.month now.day - 7) ∧
    get_last_friday ⟨2025, 9, 12, 8⟩ = "2025-09-05" := by
  refine ⟨?_, by decide⟩
  intro now hv hy hf hh
  have ht := toordinal_ge now.year now.month now.day hv hy
  unfold weekday at hf
  unfold get_last_friday_ord
  rw [days_since_friday_eq]
  split
  · rfl
  · omega

/-- Witness for C2 at Friday 2025-09-12 08:00. -/
theorem c2_friday_before_nine_witness :
    get_last_friday_ord ⟨2025, 9, 12, 8⟩ = toordinal 2025 9 12 - 7 :=
  c2_friday_before_nine.1 ⟨2025, 9, 12, 8⟩ (by decide) (by decide) (by decide) (by decide)

/-- C3: on a Friday at or after 9 o'clock local time, `get_last_friday`
returns today's date itself; e.g. Friday 2025-09-12 09:00 yields the cutoff
`2025-09-12`. -/
theorem c3_friday_after_nine :
    (∀ now : Now, ValidDate now.year now.month now.day → 2 ≤ now.year →
      weekday (toordinal now.year now.month now.day) = 4 → 9 ≤ now.hour →
      get_last_friday_ord now = toordinal now.year now.month now.day) ∧
    get_last_friday ⟨2025, 9, 12, 9⟩ = "2025-09-12" := by
  refine ⟨?_, by decide⟩
  intro now hv hy hf hh
  have ht := toordinal_ge now.year now.month now.day hv hy
  unfold weekday at hf
  unfold get_last_friday_ord
  rw [days_since_friday_eq]
  split
  · omega
  · omega

/-- Witness for C3 at Friday 2025-09-12 09:00. -/
theorem c3_friday_after_nine_witness :
    get_last_friday_ord ⟨2025, 9, 12, 9⟩ = toordinal 2025 9 12 :=
  c3_friday_after_nine.1 ⟨2025, 9, 12, 9⟩ (by decide) (by decide) (by decide) (by decide)

/-- C4: on a non-Friday, `get_last_friday` returns the most recent Friday
strictly before today, within 6 days; e.g. Sunday 2025-09-07 14:00 yields
the cutoff `2025-09-05`. -/
theorem c4_non_friday :
    (∀ now : Now, ValidDate now.year now.month now.day → 2 ≤ now.year →
      weekday (toordinal now.year now.month now.day) ≠ 4 →
      get_last_friday_ord now < toordinal now.year now.month now.day ∧
      toordinal now.year now.month now.day ≤ get_last_friday_ord now + 6 ∧
      weekday (get_last_friday_ord now) = 4) ∧
    get_last_friday ⟨2025, 9, 7, 14⟩ = "2025-09-05" := by
  refine ⟨?_, by decide⟩
  intro now hv hy hf
  have ht := toordinal_ge now.year now.month now.day hv hy
  unfold weekday at hf
  unfold get_last_friday_ord weekday
  rw [days_since_friday_eq]
  split
  · omega
  · omega

/-- Witness for C4 at Sunday 2025-09-07 14:00. -/
theorem c4_non_friday_witness :
    get_last_friday_ord ⟨2025, 9, 7, 14⟩ < toordinal 2025 9 7 ∧
    toordinal 2025 9 7 ≤ get_last_friday_ord ⟨2025, 9, 7, 14⟩ + 6 ∧
    weekday (get_last_friday_ord ⟨2025, 9, 7, 14⟩) = 4 :=
  c4_non_friday.1 ⟨2025, 9, 7, 14⟩ (by decide) (by decide) (by decide)

/-- C5: for every current local date-time (valid calendar date, year ≥ 2 so
the subtraction stays inside the calendar), the date `get_last_friday`
computes is a Friday. -/
theorem c5_cutoff_is_friday (now : Now)
    (hv : ValidDate now.year now.month now.day) (hy : 2 ≤ now.year) :
    weekday (get_last_friday_ord now) = 4 := by
  have ht := toordinal_ge now.year now.month now.day hv hy
  unfold get_last_friday_ord weekday
  rw [days_since_friday_eq]
  split
  · omega
  · omega

/-- Witness for C5 at Saturday 2025-09-13 00:00. -/
theorem c5_cutoff_is_friday_witness :
    weekday (get_last_friday_ord ⟨2025, 9, 13, 0⟩) = 4 :=
  c5_cutoff_is_friday ⟨2025, 9, 13, 0⟩ (by decide) (by decide)

/-- C6: `get_team_repos` returns exactly 44 pairs, and for every team index
1..22 and category FE/BE exactly one pair with the prescribed name
(`TEAM17_*` for team 17, `Team{i}_*` otherwise). -/
theorem c6_roster_44 :
    get_team_repos.length = 44 ∧
    ∀ i : Fin 22, ∀ c ∈ ["FE", "BE"],
      get_team_repos.count (specRepoName (i.1 + 1) c, c) = 1 := by
  decide

/-- Witness for C6 at team 17, category FE. -/
theorem c6_roster_44_witness :
    get_team_repos.count (specRepoName 17 "FE", "FE") = 1 :=
  c6_roster_44.2 ⟨16, by decide⟩ "FE" (by decide)

/-- C7: `get_team_repos` lists the 22 FE entries in increasing team order at
positions 0..21, followed by the 22 BE entries in increasing team order at
positions 22..43. -/
theorem c7_roster_order : ∀ k : Fin 22,
    get_team_repos.get? k.1 = some (specRepoName (k.1 + 1) "FE", "FE") ∧
    get_team_repos.get? (k.1 + 22) = some (specRepoName (k.1 + 1) "BE", "BE") := by
  decide

/-- Witness for C7 at position 0 (team 1). -/
theorem c7_roster_order_witness :
    get_team_repos.get? 0 = some (specRepoName 1 "FE", "FE") :=
  (c7_roster_order ⟨0, by decide⟩).1

/-- C8: `run_gh_command` turns a non-zero exit status or undecodable JSON
into the empty list — exactly what a repository with zero pull requests
produces — and never propagates an error. -/
theorem c8_query_failure_empty : ∀ (exec : String → String → SubprocResult)
    (jsonLoads : String → Option (List PRRecord)) (repo state : String),
    (∀ code, exec repo state = SubprocResult.calledProcessError code →
      run_gh_command exec jsonLoads repo state = []) ∧
    (∀ out, exec repo state = SubprocResult.ok out → jsonLoads out = none →
      run_gh_command exec jsonLoads repo state = []) ∧
    (∀ out, exec repo state = SubprocResult.ok out → jsonLoads out = some [] →
      run_gh_command exec jsonLoads repo state = []) := by
  intro exec jsonLoads repo state
  refine ⟨?_, ?_, ?_⟩
  · intro code h
    unfold run_gh_command
    rw [h]
  · intro out h hj
    unfold run_gh_command
    rw [h]
    dsimp only
    rw [hj]
  · intro out h hj
    unfold run_gh_command
    rw [h]
    dsimp only
    rw [hj]

/-- Witness for C8: a subprocess failure for `Team5_FE` yields the empty
list. -/
theorem c8_query_failure_empty_witness :
    run_gh_command (fun _ _ => SubprocResult.calledProcessError 1) (fun _ => none)
      "kakao-tech-campus-3rd-step3/Team5_FE" "open" = [] :=
  (c8_query_failure_empty (fun _ _ => SubprocResult.calledProcessError 1) (fun _ => none)
    "kakao-tech-campus-3rd-step3/Team5_FE" "open").1 1 rfl

/-- C9: `is_after_date` is partial: whenever both arguments parse it returns
a boolean, but outside that precondition it can raise instead — on the empty
timestamp it raises a parse error (modelled as `none`). -/
theorem c9_is_after_date_partial :
    (∀ T C dt c, fromisoformat (replaceZ T) = some dt → strptime_Ymd C = some c →
      ∃ b, is_after_date T C = some b) ∧
    is_after_date "" "2025-09-05" = none := by
  refine ⟨?_, by decide⟩
  intro T C dt c hT hC
  refine ⟨dateGe (dt.year, dt.month, dt.day) c, ?_⟩
  unfold is_after_date
  rw [hT, hC]

/-- Witness for C9 at the spec's example timestamp and cutoff. -/
theorem c9_is_after_date_partial_witness :
    ∃ b, is_after_date "2025-09-05T10:00:00Z" "2025-09-05" = some b :=
  c9_is_after_date_partial.1 "2025-09-05T10:00:00Z" "2025-09-05"
    ⟨2025, 9, 5, 10, 0, 0, 0, some 0⟩ (2025, 9, 5) (by decide) (by decide)

/-- C10: the 44 repository names are pairwise distinct, and a name ends in
`_FE` iff its category is `FE`, and in `_BE` iff its category is `BE`. -/
theorem c10_roster_names_distinct :
    (get_team_repos.map Prod.fst).Nodup ∧
    ∀ p ∈ get_team_repos,
      (strEndsWith p.1 "_FE" = true ↔ p.2 = "FE") ∧
      (strEndsWith p.1 "_BE" = true ↔ p.2 = "BE") := by
  decide

/-- Witness for C10 at the first roster entry. -/
theorem c10_roster_names_distinct_witness :
    (strEndsWith "Team1_FE" "_FE" = true ↔ ("FE" : String) = "FE") ∧
    (strEndsWith "Team1_FE" "_BE" = true ↔ ("FE" : String) = "BE") :=
  c10_roster_names_distinct.2 ("Team1_FE", "FE") (by decide)

end ListPrs
